import Mathlib

/-!
Shallow embedding of src/main.js, the ServiceNow change-management adapter.

The module wraps an external connector exposing asynchronous get and post
operations, each invoking a caller-supplied callback with (data, error).
We embed the observable behaviour of getRecord, postRecord, healthcheck,
connect and emitStatus as pure functions of the connector outcome.

Modelling conventions, each matching a feature of the JavaScript source:
- JavaScript primitive values that occur here are the type Value; vnull is
  the null literal, vundef the undefined value produced by reading an
  absent object property.
- A raw change-request object inside a parsed body is an association list
  of property names to values; member access is getProp, yielding vundef
  when the property is absent.
- The serialized body string is represented by the outcome of JSON.parse
  on it: either the parse throws a SyntaxError (GetBody.malformed) or it
  yields a structure with or without a result field. data.hasOwnProperty
  for the body is an Option.
- getRecord allocates exactly one record object, recordData. The forEach
  loop assigns that same reference to loopData each iteration, overwrites
  its seven fields, and pushes the reference into outRecords; we give the
  object address 0 and carry its current contents alongside the list of
  pushed references, so aliasing across the output is observable.
- A callback invocation is recorded as the list of arguments the source
  passes; the source passes exactly one argument on every path.
- The identifier outRecords is never declared in postRecord, so the two
  push statements there read an undeclared identifier and throw a
  ReferenceError before the callback runs.
- The host-provided logger object log is treated as an external no-op
  collaborator, as the specification places logging out of scope.
-/

/-- JavaScript values occurring in this embedding: strings, booleans, the
null literal and the undefined value. -/
inductive Value where
  | vstr : String → Value
  | vbool : Bool → Value
  | vnull : Value
  | vundef : Value
  deriving DecidableEq, Repr

/-- Raw change-request object delivered inside a parsed body: an
association list of property names to values, in property order. -/
abbrev RawObj := List (String × Value)

/-- Member access item.k on a raw object: the first binding of the key if
present, the undefined value otherwise. -/
def getProp (item : RawObj) (k : String) : Value :=
  match item.find? (fun p => p.1 == k) with
  | some p => p.2
  | none => Value.vundef

/-- Canonical seven-field change record, the shape of the recordData
object literal in getRecord and postRecord. -/
structure ChangeRecord where
  change_ticket_number : Value
  active : Value
  priority : Value
  description : Value
  work_start : Value
  work_end : Value
  change_ticket_key : Value
  deriving DecidableEq, Repr

/-- Contents of the recordData template as allocated at the top of
getRecord and postRecord: all seven fields initialised to null. -/
def recordData : ChangeRecord :=
  { change_ticket_number := Value.vnull
    active := Value.vnull
    priority := Value.vnull
    description := Value.vnull
    work_start := Value.vnull
    work_end := Value.vnull
    change_ticket_key := Value.vnull }

/-- Effect of the seven field assignments taken from one raw item: number,
active, priority, description, work_start, work_end and sys_id are read
from the item and written over every field of the target object, so the
result does not depend on the previous contents of the object. -/
def mapItem (item : RawObj) : ChangeRecord :=
  { change_ticket_number := getProp item "number"
    active := getProp item "active"
    priority := getProp item "priority"
    description := getProp item "description"
    work_start := getProp item "work_start"
    work_end := getProp item "work_end"
    change_ticket_key := getProp item "sys_id" }

/-- Outcome of JSON.parse on the serialized body of a GET response: the
parse throws a SyntaxError, or yields a structure whose optional result
field is a list of raw change-request objects. -/
inductive GetBody where
  | malformed : GetBody
  | parsed : Option (List RawObj) → GetBody
  deriving DecidableEq, Repr

/-- Successful GET transport response: data.body is absent, or a
serialized body represented by its parse outcome. -/
structure GetResponse where
  body : Option GetBody
  deriving DecidableEq, Repr

/-- Outcome of JSON.parse on the serialized body of a POST response: the
parse throws a SyntaxError, or yields a structure whose optional result
field is a single raw change-request object. -/
inductive PostBody where
  | malformed : PostBody
  | parsed : Option RawObj → PostBody
  deriving DecidableEq, Repr

/-- Successful POST transport response: data.body is absent, or a
serialized body represented by its parse outcome. -/
structure PostResponse where
  body : Option PostBody
  deriving DecidableEq, Repr

/-- Input the connector hands to the callback it was given: a truthy error
value, or a success payload. The connector calls back exactly once with
one of the two. -/
inductive ConnResult (β : Type) where
  | err : Value → ConnResult β
  | ok : β → ConnResult β
  deriving DecidableEq, Repr

/-- Exceptions the module can raise: a SyntaxError thrown by JSON.parse on
an unparseable body, and a ReferenceError thrown by reading an undeclared
identifier. -/
inductive JsException where
  | syntaxError : JsException
  | referenceError : String → JsException
  deriving DecidableEq, Repr

/-- Element pushed into the outRecords array of getRecord: a reference to
the single record object the function allocates (address 0), or a sentinel
string. -/
inductive HElem where
  | addr : Nat → HElem
  | sentinel : String → HElem
  deriving DecidableEq, Repr

/-- Argument passed to the caller callback of getRecord: the connector
error value, or the outRecords array paired with the current contents of
the one record object its references point to. -/
inductive GetArg where
  | errVal : Value → GetArg
  | records : ChangeRecord → List HElem → GetArg
  deriving DecidableEq, Repr

/-- Observable outcome of a getRecord call: the callback invoked with an
argument list, or an exception escaping before the callback runs. -/
inductive GetOutcome where
  | calledWith : List GetArg → GetOutcome
  | exn : JsException → GetOutcome
  deriving DecidableEq, Repr

/-- The forEach loop of getRecord. Each iteration assigns the recordData
reference (address 0) to loopData, overwrites the seven fields of that one
object with the mapping of the current item, and pushes the same reference
into outRecords. The first component is the current contents of the single
record object, the second the outRecords array. -/
def getLoop : List RawObj → ChangeRecord → List HElem → ChangeRecord × List HElem
  | [], cell, out => (cell, out)
  | item :: rest, _cell, out => getLoop rest (mapItem item) (out ++ [HElem.addr 0])

/-- getRecord, the wrapper around connector.get. On a connector error the
caller callback receives the error value as its only argument. On success,
if data has no body property a sentinel string is pushed; otherwise the
body is parsed (a parse failure throws out of the function), a missing
result field pushes the other sentinel, and a present result list is
folded through the forEach loop; finally the callback receives outRecords
as its only argument. -/
def getRecord (conn : ConnResult GetResponse) : GetOutcome :=
  match conn with
  | ConnResult.err e => GetOutcome.calledWith [GetArg.errVal e]
  | ConnResult.ok data =>
    match data.body with
    | none =>
        GetOutcome.calledWith
          [GetArg.records recordData [HElem.sentinel "Missing Data Body"]]
    | some GetBody.malformed => GetOutcome.exn JsException.syntaxError
    | some (GetBody.parsed none) =>
        GetOutcome.calledWith
          [GetArg.records recordData [HElem.sentinel "Missing Data Results"]]
    | some (GetBody.parsed (some items)) =>
        let r := getLoop items recordData []
        GetOutcome.calledWith [GetArg.records r.1 r.2]

/-- Argument passed to the caller callback of postRecord: the connector
error value, or the recordData object. -/
inductive PostArg where
  | errVal : Value → PostArg
  | record : ChangeRecord → PostArg
  deriving DecidableEq, Repr

/-- Observable outcome of a postRecord call: the callback invoked with an
argument list, or an exception escaping before the callback runs. -/
inductive PostOutcome where
  | calledWith : List PostArg → PostOutcome
  | exn : JsException → PostOutcome
  deriving DecidableEq, Repr

/-- postRecord, the wrapper around connector.post. On a connector error
the caller callback receives the error value as its only argument. On
success with a parseable body carrying a result object, the seven fields
of the freshly allocated recordData are overwritten from the result and
the callback receives that record. With no body, or a body without a
result field, the source evaluates outRecords.push on the undeclared
identifier outRecords and throws a ReferenceError before reaching the
callback; an unparseable body throws the SyntaxError of JSON.parse. -/
def postRecord (conn : ConnResult PostResponse) : PostOutcome :=
  match conn with
  | ConnResult.err e => PostOutcome.calledWith [PostArg.errVal e]
  | ConnResult.ok data =>
    match data.body with
    | none => PostOutcome.exn (JsException.referenceError "outRecords")
    | some PostBody.malformed => PostOutcome.exn JsException.syntaxError
    | some (PostBody.parsed none) =>
        PostOutcome.exn (JsException.referenceError "outRecords")
    | some (PostBody.parsed (some resultObj)) =>
        PostOutcome.calledWith [PostArg.record (mapItem resultObj)]

/-- Value of one positional parameter of the healthcheck handler
(result, error): the argument getRecord passed in that slot, or the
undefined value when getRecord passed fewer arguments. -/
inductive HCArg where
  | fromGet : GetArg → HCArg
  | undef : HCArg
  deriving DecidableEq, Repr

/-- Positional parameter binding of a JavaScript callback: the argument at
index i, or undefined past the end of the argument list. -/
def argAt (args : List GetArg) (i : Nat) : HCArg :=
  match args.get? i with
  | some a => HCArg.fromGet a
  | none => HCArg.undef

/-- JavaScript truthiness of a handler parameter: undefined is falsy; the
values getRecord actually passes in a slot, an error object or the
outRecords array, are objects and hence truthy. -/
def hcTruthy : HCArg → Bool
  | HCArg.undef => false
  | HCArg.fromGet _ => true

/-- Record of one healthcheck run: the statuses passed to emitStatus, in
order, and the argument list given to the optional caller callback (none
when no callback was supplied); every emission happens before the
callback is invoked. -/
structure HealthcheckRun where
  emitted : List String
  callbackArgs : Option (List HCArg)
  deriving DecidableEq, Repr

/-- Handler healthcheck installs on getRecord, with parameters
(result, error). If error is truthy it emits OFFLINE via emitOffline and
then calls the optional callback with the error; otherwise it emits ONLINE
via emitOnline and then calls the optional callback with the result. -/
def hcHandler (hasCallback : Bool) (args : List GetArg) : HealthcheckRun :=
  let result := argAt args 0
  let error := argAt args 1
  if hcTruthy error then
    { emitted := ["OFFLINE"]
      callbackArgs := if hasCallback then some [error] else none }
  else
    { emitted := ["ONLINE"]
      callbackArgs := if hasCallback then some [result] else none }

/-- healthcheck: runs getRecord and handles its callback with hcHandler.
An exception escaping getRecord escapes healthcheck as well. -/
def healthcheck (hasCallback : Bool) (conn : ConnResult GetResponse) :
    Except JsException HealthcheckRun :=
  match getRecord conn with
  | GetOutcome.exn e => Except.error e
  | GetOutcome.calledWith args => Except.ok (hcHandler hasCallback args)

/-- connect: completes a single healthcheck with no callback supplied. -/
def connect (conn : ConnResult GetResponse) : Except JsException HealthcheckRun :=
  healthcheck false conn

/-- Payload of a status event: the object literal carrying the adapter
instance id assigned at construction. -/
structure StatusPayload where
  id : String
  deriving DecidableEq, Repr

/-- EventEmitter emit as inherited by the adapter: synchronously notifies,
in registration order, every listener whose registered event name equals
the emitted event, passing each the same payload object, and simply
returns when no listener matches. Listeners are pairs of an event name and
an opaque handler id; the outcome is the list of delivered notifications. -/
def emit (listeners : List (String × Nat)) (event : String)
    (payload : StatusPayload) : List (Nat × StatusPayload) :=
  (listeners.filter (fun l => l.1 == event)).map (fun l => (l.2, payload))

/-- emitStatus: calls the inherited emit with the status as the event name
and the object literal containing the adapter id. -/
def emitStatus (adapterId : String) (listeners : List (String × Nat))
    (status : String) : List (Nat × StatusPayload) :=
  emit listeners status { id := adapterId }

/-- Whether a getRecord outcome invoked the caller callback at all. -/
def invokesGetCallback : GetOutcome → Bool
  | GetOutcome.calledWith _ => true
  | GetOutcome.exn _ => false

/-- Whether a postRecord outcome invoked the caller callback at all. -/
def invokesPostCallback : PostOutcome → Bool
  | PostOutcome.calledWith _ => true
  | PostOutcome.exn _ => false

/-- The seven source property names the normalization reads. -/
def expectedKeys : List String :=
  ["number", "active", "priority", "description", "work_start", "work_end", "sys_id"]

/-- Raw item with number A, first entry of the two-entry GET result used
to exhibit the template-reuse bug. -/
def itemA : RawObj := [("number", Value.vstr "A")]

/-- Raw item with number B, second entry of the two-entry GET result used
to exhibit the template-reuse bug. -/
def itemB : RawObj := [("number", Value.vstr "B")]

/-- Raw result object of the POST response used for the field-mapping
property: the seven expected source fields with concrete values. -/
def c7Item : RawObj :=
  [("number", Value.vstr "CHG01"), ("active", Value.vbool true),
   ("priority", Value.vstr "1"), ("description", Value.vstr "d"),
   ("work_start", Value.vstr "t1"), ("work_end", Value.vstr "t2"),
   ("sys_id", Value.vstr "abc")]

/-- C1: at the failing input, a successful GET response whose result holds
two raw entries, getRecord pushes the same record object reference twice:
both elements of outRecords are address 0, so the two output records alias
one another and mutating one mutates the other, and the single object
holds the mapping of the last entry, so the data of the first entry is
lost. The claim of fresh, independently owned records fails. -/
theorem c1_list_records_alias_one_template :
    getRecord (ConnResult.ok { body := some (GetBody.parsed (some [itemA, itemB])) }) =
      GetOutcome.calledWith
        [GetArg.records (mapItem itemB) [HElem.addr 0, HElem.addr 0]] ∧
    mapItem itemB ≠ mapItem itemA := by
  refine ⟨rfl, ?_⟩
  decide

/-- C2: at the failing input, a connector error reaching healthcheck, the
probe emits ONLINE and hands the error to the optional callback, because
getRecord passes the error in the first (data) argument slot and the
handler checks its second parameter, which is always undefined. The claim
that a connector error yields OFFLINE fails. -/
theorem c2_probe_connector_error_emits_online :
    healthcheck true (ConnResult.err (Value.vstr "ECONNREFUSED")) =
      Except.ok
        { emitted := ["ONLINE"]
          callbackArgs :=
            some [HCArg.fromGet (GetArg.errVal (Value.vstr "ECONNREFUSED"))] } := by
  rfl

/-- C3: at the failing inputs, a successful POST response with no body and
one whose parsed body lacks a result field, postRecord throws a
ReferenceError on the undeclared identifier outRecords before the callback
runs, instead of invoking the callback with the all-null record. -/
theorem c3_post_missing_body_reference_error :
    postRecord (ConnResult.ok { body := none }) =
      PostOutcome.exn (JsException.referenceError "outRecords") ∧
    postRecord (ConnResult.ok { body := some (PostBody.parsed none) }) =
      PostOutcome.exn (JsException.referenceError "outRecords") :=
  ⟨rfl, rfl⟩

/-- C4: a successful GET response with no body resolves locally to the
callback receiving the outRecords array holding the sentinel string
Missing Data Body, and one whose parsed body lacks a result field to the
array holding Missing Data Results; in both cases the callback is invoked
with the sentinel in place of records, no exception is raised and no error
value is passed. -/
theorem c4_get_sentinels_no_exception :
    getRecord (ConnResult.ok { body := none }) =
      GetOutcome.calledWith
        [GetArg.records recordData [HElem.sentinel "Missing Data Body"]] ∧
    getRecord (ConnResult.ok { body := some (GetBody.parsed none) }) =
      GetOutcome.calledWith
        [GetArg.records recordData [HElem.sentinel "Missing Data Results"]] :=
  ⟨rfl, rfl⟩

/-- C5 counterexample: on a successful response whose body cannot be
parsed, neither getRecord nor postRecord invokes the caller callback at
all, so the parse failure is not propagated as an error to the callback as
the claim states. -/
theorem c5_counterexample_callback_not_invoked :
    invokesGetCallback
      (getRecord (ConnResult.ok { body := some GetBody.malformed })) = false ∧
    invokesPostCallback
      (postRecord (ConnResult.ok { body := some PostBody.malformed })) = false :=
  ⟨rfl, rfl⟩

/-- C5 amended: on a successful response whose body cannot be parsed,
getRecord and postRecord fail with the SyntaxError thrown by JSON.parse,
which escapes the function uncaught; the failure is never downgraded to a
Missing Data sentinel and the callback receives nothing. -/
theorem c5_malformed_body_raises_parse_error :
    getRecord (ConnResult.ok { body := some GetBody.malformed }) =
      GetOutcome.exn JsException.syntaxError ∧
    postRecord (ConnResult.ok { body := some PostBody.malformed }) =
      PostOutcome.exn JsException.syntaxError :=
  ⟨rfl, rfl⟩

/-- C6: on a connector error, getRecord and postRecord pass the error
value to the caller callback unchanged as its only argument; no record and
no sentinel is delivered and no exception is raised. -/
theorem c6_transport_error_propagates (e : Value) :
    getRecord (ConnResult.err e) = GetOutcome.calledWith [GetArg.errVal e] ∧
    postRecord (ConnResult.err e) = PostOutcome.calledWith [PostArg.errVal e] :=
  ⟨rfl, rfl⟩

/-- C7: on a successful POST response whose result carries the seven
expected source fields with the given concrete values, postRecord invokes
the callback with the record mapping number to change_ticket_number and
sys_id to change_ticket_key; the record is rebuilt from the freshly
allocated template on every call, as postRecord is a function of the
connector outcome alone. -/
theorem c7_post_field_mapping :
    postRecord (ConnResult.ok { body := some (PostBody.parsed (some c7Item)) }) =
      PostOutcome.calledWith
        [PostArg.record
          { change_ticket_number := Value.vstr "CHG01"
            active := Value.vbool true
            priority := Value.vstr "1"
            description := Value.vstr "d"
            work_start := Value.vstr "t1"
            work_end := Value.vstr "t2"
            change_ticket_key := Value.vstr "abc" }] := by
  decide

/-- C8 counterexample: normalizing a raw object with no fields leaves
change_ticket_number holding the undefined value, which is distinct from
the null value, so a missing expected field does not map to null as the
claim states. -/
theorem c8_counterexample_missing_field_not_null :
    (mapItem []).change_ticket_number = Value.vundef ∧
    Value.vundef ≠ Value.vnull := by
  refine ⟨rfl, ?_⟩
  decide

/-- C8 amended: the normalized record depends only on the seven expected
source fields, so unknown or extra fields are ignored, and every expected
field missing from the source maps to the undefined value in the resulting
record, not to null and not to an error. -/
theorem c8_normalization_ignores_unknown_missing_undefined (a b : RawObj)
    (h : ∀ k, k ∈ expectedKeys → getProp a k = getProp b k) :
    mapItem a = mapItem b ∧
    mapItem [] =
      { change_ticket_number := Value.vundef
        active := Value.vundef
        priority := Value.vundef
        description := Value.vundef
        work_start := Value.vundef
        work_end := Value.vundef
        change_ticket_key := Value.vundef } := by
  constructor
  · unfold mapItem
    rw [h "number" (by decide), h "active" (by decide), h "priority" (by decide),
      h "description" (by decide), h "work_start" (by decide),
      h "work_end" (by decide), h "sys_id" (by decide)]
  · rfl

/-- Witness for C8: a raw object holding only an unknown field normalizes
exactly like the empty raw object, and the empty raw object normalizes to
the all-undefined record. -/
theorem c8_witness_unknown_field_ignored :
    mapItem [("extra", Value.vstr "x")] = mapItem [] ∧
    mapItem [] =
      { change_ticket_number := Value.vundef
        active := Value.vundef
        priority := Value.vundef
        description := Value.vundef
        work_start := Value.vundef
        work_end := Value.vundef
        change_ticket_key := Value.vundef } :=
  c8_normalization_ignores_unknown_missing_undefined
    [("extra", Value.vstr "x")] [] (by decide)

/-- C9: emitting a status notifies exactly the listeners registered for
that event name, in registration order and each exactly once, every
notification carrying the same payload object with the adapter id assigned
at construction; with zero subscribers the emission returns an empty
delivery list and is total, so nothing is thrown. -/
theorem c9_emit_fanout (adapterId status : String)
    (listeners : List (String × Nat)) :
    (emitStatus adapterId listeners status).map Prod.fst =
      (listeners.filter (fun l => l.1 == status)).map Prod.snd ∧
    (emitStatus adapterId listeners status).map Prod.snd =
      List.replicate ((listeners.filter (fun l => l.1 == status)).length)
        { id := adapterId } ∧
    emitStatus adapterId [] status = [] := by
  refine ⟨?_, ?_, rfl⟩
  · simp [emitStatus, emit, List.map_map]
  · simp only [emitStatus, emit, List.map_map]
    generalize List.filter (fun l => l.1 == status) listeners = matched
    induction matched with
    | nil => rfl
    | cons a t ih =>
        simp [Function.comp, List.replicate_succ] at ih ⊢
        exact ih

/-- C10: on a connector error, getRecord, postRecord and healthcheck each
invoke the caller callback with the error value as its first and only
argument, the same positional slot that carries the data on success, so
the caller receives no separate error parameter. -/
theorem c10_error_delivered_in_data_slot (e : Value) :
    getRecord (ConnResult.err e) = GetOutcome.calledWith [GetArg.errVal e] ∧
    postRecord (ConnResult.err e) = PostOutcome.calledWith [PostArg.errVal e] ∧
    healthcheck true (ConnResult.err e) =
      Except.ok
        { emitted := ["ONLINE"]
          callbackArgs := some [HCArg.fromGet (GetArg.errVal e)] } :=
  ⟨rfl, rfl, rfl⟩
